import Mathlib

/-!
Shallow embedding of the HSA_Demo account-ledger application (src/app.py).

Modelling conventions:
* Monetary amounts (Python `float`) are embedded as exact rationals `ℚ`.
* The process-wide mutable list `accounts` is embedded as an explicit
  `List Account` threaded through every operation; a Python in-place
  mutation of the dict returned by `get_account` becomes replacement of
  the first list element matching the same predicate (`updateFirst`).
* `save_data` performs file I/O only; it does not change the in-memory
  collection, so it is not represented in the state-passing embedding.
* Python `str.strip()` / `str.lower()` are embedded as `pyStrip` /
  `pyLower` over the string's character list (ASCII whitespace and the
  basic-latin case mapping, which is what the data in question uses).
* `datetime.utcnow().strftime(...)` is nondeterministic input; the
  formatted timestamp is passed to `validate_transaction` as the extra
  argument `now`.
-/

/-- Python's default `str.strip` whitespace characters (space, tab,
newline, carriage return, vertical tab, form feed). -/
def pyIsSpace (c : Char) : Bool :=
  c.toNat == 32 || c.toNat == 9 || c.toNat == 10 || c.toNat == 13 ||
  c.toNat == 11 || c.toNat == 12

/-- Embedding of Python `s.strip()`: drop leading and trailing whitespace. -/
def pyStrip (s : String) : String :=
  String.mk (((s.data.dropWhile pyIsSpace).reverse.dropWhile pyIsSpace).reverse)

/-- Embedding of Python `s.lower()` (basic-latin case mapping). -/
def pyLower (s : String) : String :=
  String.mk (s.data.map Char.toLower)

/-- Embedding of the Python idiom `s.strip().lower()` used throughout app.py. -/
def py_strip_lower (s : String) : String :=
  pyLower (pyStrip s)

/-- Transaction record, as built in `validate_transaction` (src/app.py:85-90):
keys `type`, `amount`, `status` (initially `None`), `date`. -/
structure Txn where
  type : String
  amount : ℚ
  status : Option String
  date : String
deriving DecidableEq

/-- Account record, as built in `create_an_account` (src/app.py:51-58). -/
structure Account where
  name : String
  email : String
  id : Nat
  balance : ℚ
  card_number : Option String
  transactions : List Txn
deriving DecidableEq

/-- A generic JSON value, for the persisted-file layer (`json.load` result). -/
inductive JValue where
  | null
  | bool (b : Bool)
  | num (q : ℚ)
  | str (s : String)
  | arr (elems : List JValue)
  | obj (fields : List (String × JValue))

/-- Embedding of `load_data` (src/app.py:12-20).  The outcome of opening and
parsing the file is the argument: `none` when the file is absent, unreadable
or unparseable (the `except` path), `some v` when parsing yielded `v`.
The function is total, so it never raises to its caller. -/
def load_data (readResult : Option JValue) : List JValue :=
  match readResult with
  | none => []
  | some data =>
    match data with
    | JValue.arr l => l
    | _ => []

/-- `ALLOWED_EXPENSES` (src/app.py:29). -/
def ALLOWED_EXPENSES : List String :=
  ["doctor", "prescription", "dental", "vision", "therapy", "lab"]

/-- `get_account` (src/app.py:31-35): first account with the given id. -/
def get_account : List Account → Nat → Option Account
  | [], _ => none
  | a :: rest, aid => if a.id == aid then some a else get_account rest aid

/-- The scan inside `get_account_by_email` (src/app.py:39-42), with the
already-normalized query `e`. -/
def find_by_norm_email (e : String) : List Account → Option Account
  | [] => none
  | a :: rest =>
    if py_strip_lower a.email == e then some a else find_by_norm_email e rest

/-- `get_account_by_email` (src/app.py:37-42): normalize the query, then scan. -/
def get_account_by_email (accounts : List Account) (email : String) :
    Option Account :=
  find_by_norm_email (py_strip_lower email) accounts

/-- Replace the first element satisfying `p` by its image under `f`:
the effect on the list of Python's in-place mutation of the first match. -/
def updateFirst (p : Account → Bool) (f : Account → Account) :
    List Account → List Account
  | [] => []
  | a :: rest => if p a then f a :: rest else a :: updateFirst p f rest

/-- `create_an_account` (src/app.py:44-61).  Returns the Python return value
(`None` on duplicate email) together with the updated collection. -/
def create_an_account (accounts : List Account) (name email : String) :
    Option Account × List Account :=
  let n := pyStrip name
  let e := py_strip_lower email
  match get_account_by_email accounts e with
  | some _ => (none, accounts)
  | none =>
    let new_id := accounts.length + 1
    let new_account : Account :=
      { name := n, email := e, id := new_id, balance := 0,
        card_number := none, transactions := [] }
    (some new_account, accounts ++ [new_account])

/-- `deposit_funds` (src/app.py:63-69). -/
def deposit_funds (accounts : List Account) (account_id : Nat) (amount : ℚ) :
    Option Account × List Account :=
  match get_account accounts account_id with
  | none => (none, accounts)
  | some acct =>
    let acct := { acct with balance := acct.balance + amount }
    (some acct, updateFirst (fun a => a.id == account_id) (fun _ => acct) accounts)

/-- Python truthiness test `not acct.get("card_number")` (src/app.py:75):
true when the field is `None` or the empty string. -/
def py_falsy_str : Option String → Bool
  | none => true
  | some s => s == ""

/-- Python `%04d`-style formatting (src/app.py:76): decimal digits,
zero-padded on the left to a minimum width of 4. -/
def pad4 (n : Nat) : String :=
  let s := toString n
  if s.length < 4 then String.mk (List.replicate (4 - s.length) '0') ++ s else s

/-- The card number string assigned at src/app.py:76. -/
def card_number_for (account_id : Nat) : String :=
  "4000-0000-0000-" ++ pad4 account_id

/-- `issue_card` (src/app.py:71-78). -/
def issue_card (accounts : List Account) (account_id : Nat) :
    Option Account × List Account :=
  match get_account accounts account_id with
  | none => (none, accounts)
  | some acct =>
    if py_falsy_str acct.card_number then
      let acct := { acct with card_number := some (card_number_for account_id) }
      (some acct, updateFirst (fun a => a.id == account_id) (fun _ => acct) accounts)
    else
      (some acct, accounts)

/-- `validate_transaction` (src/app.py:80-108).  `now` is the formatted
current UTC timestamp (src/app.py:89).  Returns the Python return value
(`"approved"` or `"denied"`) together with the updated collection. -/
def validate_transaction (accounts : List Account) (account_id : Nat)
    (amount : ℚ) (etype : String) (now : String) : String × List Account :=
  match get_account accounts account_id with
  | none => ("denied", accounts)
  | some acct =>
    let txn : Txn := { type := etype, amount := amount, status := none, date := now }
    if !(ALLOWED_EXPENSES.contains (py_strip_lower etype)) then
      let acct := { acct with
        transactions := acct.transactions ++ [{ txn with status := some "denied" }] }
      ("denied", updateFirst (fun a => a.id == account_id) (fun _ => acct) accounts)
    else if amount > acct.balance then
      let acct := { acct with
        transactions := acct.transactions ++ [{ txn with status := some "denied" }] }
      ("denied", updateFirst (fun a => a.id == account_id) (fun _ => acct) accounts)
    else
      let acct := { acct with
        transactions := acct.transactions ++ [{ txn with status := some "approved" }],
        balance := acct.balance - amount }
      ("approved", updateFirst (fun a => a.id == account_id) (fun _ => acct) accounts)

/-- States of the account collection reachable from the empty collection by
the four mutating operations, with arbitrary rational amounts. -/
inductive Reachable : List Account → Prop where
  | init : Reachable []
  | create (s : List Account) (name email : String) :
      Reachable s → Reachable (create_an_account s name email).2
  | deposit (s : List Account) (aid : Nat) (amount : ℚ) :
      Reachable s → Reachable (deposit_funds s aid amount).2
  | card (s : List Account) (aid : Nat) :
      Reachable s → Reachable (issue_card s aid).2
  | validate (s : List Account) (aid : Nat) (amount : ℚ) (etype now : String) :
      Reachable s → Reachable (validate_transaction s aid amount etype now).2

/-- Reachability as above, but with every deposit amount non-negative
(transaction amounts stay arbitrary). -/
inductive ReachableNonnegDeposits : List Account → Prop where
  | init : ReachableNonnegDeposits []
  | create (s : List Account) (name email : String) :
      ReachableNonnegDeposits s →
      ReachableNonnegDeposits (create_an_account s name email).2
  | deposit (s : List Account) (aid : Nat) (amount : ℚ) (hamt : 0 ≤ amount) :
      ReachableNonnegDeposits s →
      ReachableNonnegDeposits (deposit_funds s aid amount).2
  | card (s : List Account) (aid : Nat) :
      ReachableNonnegDeposits s → ReachableNonnegDeposits (issue_card s aid).2
  | validate (s : List Account) (aid : Nat) (amount : ℚ) (etype now : String) :
      ReachableNonnegDeposits s →
      ReachableNonnegDeposits (validate_transaction s aid amount etype now).2

/-- A concrete account used by witnesses: id 1, balance 100, no card. -/
def acctW : Account :=
  { name := "Alice", email := "alice@x.com", id := 1, balance := 100,
    card_number := none, transactions := [] }

/-- Any account returned by `get_account` carries the queried id. -/
theorem get_account_id {s : List Account} {aid : Nat} {a : Account}
    (h : get_account s aid = some a) : a.id = aid := by
  induction s with
  | nil => simp [get_account] at h
  | cons b rest ih =>
    by_cases hb : b.id = aid
    · rw [get_account, if_pos (by simpa using hb)] at h
      cases h
      exact hb
    · rw [get_account, if_neg (by simpa using hb)] at h
      exact ih h

/-- Any account returned by `get_account` is in the collection. -/
theorem get_account_mem {s : List Account} {aid : Nat} {a : Account}
    (h : get_account s aid = some a) : a ∈ s := by
  induction s with
  | nil => simp [get_account] at h
  | cons b rest ih =>
    by_cases hb : b.id = aid
    · rw [get_account, if_pos (by simpa using hb)] at h
      cases h
      exact List.mem_cons_self _ _
    · rw [get_account, if_neg (by simpa using hb)] at h
      exact List.mem_cons_of_mem _ (ih h)

/-- After replacing the first id-match by `x` (with `x` keeping the id),
`get_account` finds `x`. -/
theorem get_account_updateFirst {s : List Account} {aid : Nat} {acct x : Account}
    (h : get_account s aid = some acct) (hx : x.id = aid) :
    get_account (updateFirst (fun a => a.id == aid) (fun _ => x) s) aid = some x := by
  induction s with
  | nil => simp [get_account] at h
  | cons b rest ih =>
    by_cases hb : b.id = aid
    · simp [updateFirst, hb, get_account, hx]
    · rw [get_account, if_neg (by simpa using hb)] at h
      simp only [updateFirst]
      rw [if_neg (by simpa using hb), get_account, if_neg (by simpa using hb)]
      exact ih h

/-- Membership after `updateFirst` with a constant replacement. -/
theorem mem_updateFirst {p : Account → Bool} {x : Account} {s : List Account}
    {a : Account} (h : a ∈ updateFirst p (fun _ => x) s) : a ∈ s ∨ a = x := by
  induction s with
  | nil => simp [updateFirst] at h
  | cons b rest ih =>
    rw [updateFirst] at h
    split at h
    · rcases List.mem_cons.1 h with h1 | h1
      · exact Or.inr h1
      · exact Or.inl (List.mem_cons_of_mem _ h1)
    · rcases List.mem_cons.1 h with h1 | h1
      · exact Or.inl (h1 ▸ List.mem_cons_self _ _)
      · rcases ih h1 with h2 | h2
        · exact Or.inl (List.mem_cons_of_mem _ h2)
        · exact Or.inr h2

/-- Unfolding `create_an_account` when the normalized email is taken. -/
theorem create_an_account_found {s : List Account} {name email : String}
    {x : Account} (h : get_account_by_email s (py_strip_lower email) = some x) :
    create_an_account s name email = (none, s) := by
  simp [create_an_account, h]

/-- Unfolding `create_an_account` when the normalized email is fresh. -/
theorem create_an_account_not_found {s : List Account} {name email : String}
    (h : get_account_by_email s (py_strip_lower email) = none) :
    create_an_account s name email =
      (some { name := pyStrip name, email := py_strip_lower email,
              id := s.length + 1, balance := 0, card_number := none,
              transactions := [] },
       s ++ [{ name := pyStrip name, email := py_strip_lower email,
               id := s.length + 1, balance := 0, card_number := none,
               transactions := [] }]) := by
  simp [create_an_account, h]

/-- Unfolding `deposit_funds` when the account exists. -/
theorem deposit_funds_found {s : List Account} {aid : Nat} {amount : ℚ}
    {acct : Account} (h : get_account s aid = some acct) :
    deposit_funds s aid amount =
      (some { acct with balance := acct.balance + amount },
       updateFirst (fun a => a.id == aid)
         (fun _ => { acct with balance := acct.balance + amount }) s) := by
  simp [deposit_funds, h]

/-- Unfolding `deposit_funds` when the account is absent. -/
theorem deposit_funds_not_found {s : List Account} {aid : Nat} {amount : ℚ}
    (h : get_account s aid = none) : deposit_funds s aid amount = (none, s) := by
  simp [deposit_funds, h]

/-- Unfolding `issue_card` when the account exists and has no (truthy) card. -/
theorem issue_card_falsy {s : List Account} {aid : Nat} {acct : Account}
    (h : get_account s aid = some acct) (hc : py_falsy_str acct.card_number = true) :
    issue_card s aid =
      (some { acct with card_number := some (card_number_for aid) },
       updateFirst (fun a => a.id == aid)
         (fun _ => { acct with card_number := some (card_number_for aid) }) s) := by
  simp [issue_card, h, hc]

/-- Unfolding `issue_card` when the account exists and already has a card. -/
theorem issue_card_truthy {s : List Account} {aid : Nat} {acct : Account}
    (h : get_account s aid = some acct) (hc : py_falsy_str acct.card_number = false) :
    issue_card s aid = (some acct, s) := by
  simp [issue_card, h, hc]

/-- Unfolding `issue_card` when the account is absent. -/
theorem issue_card_not_found {s : List Account} {aid : Nat}
    (h : get_account s aid = none) : issue_card s aid = (none, s) := by
  simp [issue_card, h]

/-- Unfolding `validate_transaction` when the account is absent. -/
theorem validate_transaction_not_found {s : List Account} {aid : Nat}
    {amount : ℚ} {etype now : String} (h : get_account s aid = none) :
    validate_transaction s aid amount etype now = ("denied", s) := by
  simp [validate_transaction, h]

/-- Unfolding `validate_transaction` on a disallowed category. -/
theorem validate_transaction_bad_category {s : List Account} {aid : Nat}
    {amount : ℚ} {etype now : String} {acct : Account}
    (h : get_account s aid = some acct)
    (hcat : ALLOWED_EXPENSES.contains (py_strip_lower etype) = false) :
    validate_transaction s aid amount etype now =
      ("denied", updateFirst (fun a => a.id == aid)
        (fun _ => { acct with transactions :=
            acct.transactions ++ [⟨etype, amount, some "denied", now⟩] }) s) := by
  have hm : py_strip_lower etype ∉ ALLOWED_EXPENSES := by simpa using hcat
  simp [validate_transaction, h, hm]

/-- Unfolding `validate_transaction` on an allowed category with
`amount > balance`. -/
theorem validate_transaction_insufficient {s : List Account} {aid : Nat}
    {amount : ℚ} {etype now : String} {acct : Account}
    (h : get_account s aid = some acct)
    (hcat : ALLOWED_EXPENSES.contains (py_strip_lower etype) = true)
    (hgt : amount > acct.balance) :
    validate_transaction s aid amount etype now =
      ("denied", updateFirst (fun a => a.id == aid)
        (fun _ => { acct with transactions :=
            acct.transactions ++ [⟨etype, amount, some "denied", now⟩] }) s) := by
  have hm : py_strip_lower etype ∈ ALLOWED_EXPENSES := by simpa using hcat
  simp [validate_transaction, h, hm, hgt]

/-- Unfolding `validate_transaction` on an allowed category with
`amount ≤ balance`. -/
theorem validate_transaction_approved {s : List Account} {aid : Nat}
    {amount : ℚ} {etype now : String} {acct : Account}
    (h : get_account s aid = some acct)
    (hcat : ALLOWED_EXPENSES.contains (py_strip_lower etype) = true)
    (hle : amount ≤ acct.balance) :
    validate_transaction s aid amount etype now =
      ("approved", updateFirst (fun a => a.id == aid)
        (fun _ => { acct with
          transactions := acct.transactions ++ [⟨etype, amount, some "approved", now⟩],
          balance := acct.balance - amount }) s) := by
  have hm : py_strip_lower etype ∈ ALLOWED_EXPENSES := by simpa using hcat
  simp [validate_transaction, h, hm, not_lt.2 hle]

/-- The derived card number is a non-empty string, hence Python-truthy. -/
theorem py_falsy_card_number_for (aid : Nat) :
    py_falsy_str (some (card_number_for aid)) = false := by
  simp only [py_falsy_str, card_number_for, beq_eq_false_iff_ne, ne_eq]
  intro hcontra
  have hdata : ("4000-0000-0000-" ++ pad4 aid).data = ("" : String).data :=
    congrArg String.data hcontra
  rw [String.data_append] at hdata
  simp at hdata

/-- If the last element of the scanned list matches the key, the scan of
`find_by_norm_email` succeeds on some element. -/
theorem find_by_norm_email_append (xs : List Account) {k : String} {c : Account}
    (hc : py_strip_lower c.email = k) :
    ∃ b, find_by_norm_email k (xs ++ [c]) = some b := by
  induction xs with
  | nil => exact ⟨c, by simp [find_by_norm_email, hc]⟩
  | cons a rest ih =>
    rw [List.cons_append, find_by_norm_email]
    split
    · exact ⟨a, rfl⟩
    · exact ih

/-- C1 (counterexample): for an absent account id, `validate_transaction`
does NOT return a distinct NotFound signal: it returns the very same
`"denied"` string that a genuine Denied outcome (present account,
disallowed category) returns. -/
theorem C1_counterexample :
    validate_transaction [] 1 5 "doctor" "2024-01-01 00:00 UTC" = ("denied", []) ∧
    (validate_transaction [acctW] 1 5 "haircut" "2024-01-01 00:00 UTC").1 = "denied" :=
  ⟨rfl, rfl⟩

/-- C1 (amended): for every account id not present in the collection,
`validate_transaction` returns the same `"denied"` signal used for the
Denied outcome, appends no transaction record to any account, and leaves
the collection unchanged. -/
theorem C1_absent_account_denied_unchanged (s : List Account) (aid : Nat)
    (amount : ℚ) (etype now : String) (h : get_account s aid = none) :
    validate_transaction s aid amount etype now = ("denied", s) := by
  simp [validate_transaction, h]

/-- C1 witness: the amended theorem at a concrete absent id. -/
theorem C1_witness :
    validate_transaction [] 2 7 "dental" "d" = ("denied", []) :=
  C1_absent_account_denied_unchanged [] 2 7 "dental" "d" rfl

/-- C5: for a name/email pair whose normalized email matches no existing
account, `create_an_account` succeeds and returns an account whose id is
the prior count plus one, with balance 0, no card number and empty
transaction history, and appends exactly that account. -/
theorem C5_create_fresh_email (s : List Account) (name email : String)
    (h : get_account_by_email s (py_strip_lower email) = none) :
    create_an_account s name email =
      (some { name := pyStrip name, email := py_strip_lower email,
              id := s.length + 1, balance := 0, card_number := none,
              transactions := [] },
       s ++ [{ name := pyStrip name, email := py_strip_lower email,
               id := s.length + 1, balance := 0, card_number := none,
               transactions := [] }]) :=
  create_an_account_not_found h

/-- C5 witness: concrete fresh creation (note trimming and lowercasing). -/
theorem C5_witness :
    create_an_account [] " Bob " " Bob@X.com " =
      (some { name := "Bob", email := "bob@x.com", id := 1, balance := 0,
              card_number := none, transactions := [] },
       [{ name := "Bob", email := "bob@x.com", id := 1, balance := 0,
          card_number := none, transactions := [] }]) := by
  have h := C5_create_fresh_email [] " Bob " " Bob@X.com " rfl
  rw [h]
  decide

/-- C8: depositing a non-negative amount into an existing account increases
exactly that account's balance by that amount; depositing into an absent id
signals not-found (`none`) and changes no state. -/
theorem C8_deposit_behavior :
    (∀ (s : List Account) (aid : Nat) (amount : ℚ) (acct : Account),
        get_account s aid = some acct → 0 ≤ amount →
        (deposit_funds s aid amount).1 =
            some { acct with balance := acct.balance + amount } ∧
          get_account (deposit_funds s aid amount).2 aid =
            some { acct with balance := acct.balance + amount }) ∧
    (∀ (s : List Account) (aid : Nat) (amount : ℚ),
        get_account s aid = none → deposit_funds s aid amount = (none, s)) := by
  constructor
  · intro s aid amount acct hacct _
    rw [deposit_funds_found hacct]
    exact ⟨rfl, get_account_updateFirst hacct (by simp [get_account_id hacct])⟩
  · intro s aid amount hnone
    exact deposit_funds_not_found hnone

/-- C8 witness: deposit 5 into the concrete account (balance 100 → 105);
deposit into an empty collection is a no-op returning `none`. -/
theorem C8_witness :
    (deposit_funds [acctW] 1 5).1 = some { acctW with balance := 105 } ∧
    get_account (deposit_funds [acctW] 1 5).2 1 = some { acctW with balance := 105 } ∧
    deposit_funds [] 1 5 = (none, []) := by
  have h := C8_deposit_behavior.1 [acctW] 1 5 acctW rfl (by norm_num)
  have hbal : acctW.balance + 5 = (105 : ℚ) := by norm_num [acctW]
  refine ⟨?_, ?_, C8_deposit_behavior.2 [] 1 5 rfl⟩
  · rw [h.1, hbal]
  · rw [h.2, hbal]

/-- C9: `load_data` is total (never raises): it returns the parsed contents
exactly when the top-level parsed value is an ordered sequence, and the
empty collection for every other file condition (absent, unreadable,
unparseable, or non-sequence top-level value). -/
theorem C9_load_data_fails_open :
    (∀ l : List JValue, load_data (some (JValue.arr l)) = l) ∧
    (∀ r : Option JValue, (∀ l : List JValue, r ≠ some (JValue.arr l)) →
      load_data r = []) := by
  constructor
  · intro l
    rfl
  · intro r hr
    rcases r with _ | v
    · rfl
    · cases v with
      | arr l => exact absurd rfl (hr l)
      | _ => rfl

/-- C9 witness: a parsed list is returned as-is; a failed read and a
non-list top-level value both give the empty collection. -/
theorem C9_witness :
    load_data (some (JValue.arr [JValue.num 3])) = [JValue.num 3] ∧
    load_data none = [] ∧
    load_data (some (JValue.num 3)) = [] :=
  ⟨C9_load_data_fails_open.1 [JValue.num 3],
   C9_load_data_fails_open.2 none (by intro l h; cases h),
   C9_load_data_fails_open.2 (some (JValue.num 3)) (by intro l h; simp at h)⟩

/-- C3: for an existing account, an allow-listed category (after trimming
and lowercasing) and `0 ≤ amount ≤ balance`, `validate_transaction` returns
`"approved"`, appends exactly one record with status approved to that
account's history, and decreases that account's balance by exactly `amount`. -/
theorem C3_allowed_sufficient_approved (s : List Account) (aid : Nat)
    (amount : ℚ) (etype now : String) (acct : Account)
    (hacct : get_account s aid = some acct)
    (hcat : ALLOWED_EXPENSES.contains (py_strip_lower etype) = true)
    (h0 : 0 ≤ amount) (hle : amount ≤ acct.balance) :
    (validate_transaction s aid amount etype now).1 = "approved" ∧
    get_account (validate_transaction s aid amount etype now).2 aid =
      some { acct with
        transactions := acct.transactions ++ [⟨etype, amount, some "approved", now⟩],
        balance := acct.balance - amount } := by
  rw [validate_transaction_approved hacct hcat hle]
  exact ⟨rfl, get_account_updateFirst hacct (by simp [get_account_id hacct])⟩

/-- C3 witness: approve 40 against balance 100 in category "doctor". -/
theorem C3_witness :
    (validate_transaction [acctW] 1 40 "doctor" "d").1 = "approved" ∧
    get_account (validate_transaction [acctW] 1 40 "doctor" "d").2 1 =
      some { acctW with
        transactions := [⟨"doctor", 40, some "approved", "d"⟩],
        balance := 60 } := by
  have h := C3_allowed_sufficient_approved [acctW] 1 40 "doctor" "d" acctW rfl
    (by decide) (by norm_num) (by norm_num [acctW])
  refine ⟨h.1, ?_⟩
  rw [h.2]
  have hbal : acctW.balance - 40 = (60 : ℚ) := by norm_num [acctW]
  rw [hbal]
  rfl

/-- C4: for an existing account and a category whose trimmed, lowercased
form is not allow-listed, `validate_transaction` returns `"denied"` for
every amount, appends exactly one record with status denied whose stored
`type` field is the original, non-normalized category string, and leaves
the account's balance unchanged. -/
theorem C4_disallowed_category_denied (s : List Account) (aid : Nat)
    (amount : ℚ) (etype now : String) (acct : Account)
    (hacct : get_account s aid = some acct)
    (hcat : ALLOWED_EXPENSES.contains (py_strip_lower etype) = false) :
    (validate_transaction s aid amount etype now).1 = "denied" ∧
    get_account (validate_transaction s aid amount etype now).2 aid =
      some { acct with
        transactions := acct.transactions ++ [⟨etype, amount, some "denied", now⟩] } := by
  rw [validate_transaction_bad_category hacct hcat]
  exact ⟨rfl, get_account_updateFirst hacct (by simp [get_account_id hacct])⟩

/-- C4 witness: category " Haircut " (disallowed even after normalization)
is denied at an amount exceeding the balance, the record stores the
original string verbatim, and the balance stays 100. -/
theorem C4_witness :
    (validate_transaction [acctW] 1 250 " Haircut " "d").1 = "denied" ∧
    get_account (validate_transaction [acctW] 1 250 " Haircut " "d").2 1 =
      some { acctW with
        transactions := [⟨" Haircut ", 250, some "denied", "d"⟩] } := by
  have h := C4_disallowed_category_denied [acctW] 1 250 " Haircut " "d" acctW rfl
    (by decide)
  refine ⟨h.1, ?_⟩
  rw [h.2]
  rfl

/-- C10: for an existing account, an allow-listed category and a negative
amount with `amount ≤ balance`, `validate_transaction` returns `"approved"`,
appends a record with status approved, and increases the balance by the
absolute value of the amount (no non-negativity check precedes the balance
comparison). -/
theorem C10_negative_amount_approved (s : List Account) (aid : Nat)
    (amount : ℚ) (etype now : String) (acct : Account)
    (hacct : get_account s aid = some acct)
    (hcat : ALLOWED_EXPENSES.contains (py_strip_lower etype) = true)
    (hneg : amount < 0) (hle : amount ≤ acct.balance) :
    (validate_transaction s aid amount etype now).1 = "approved" ∧
    get_account (validate_transaction s aid amount etype now).2 aid =
      some { acct with
        transactions := acct.transactions ++ [⟨etype, amount, some "approved", now⟩],
        balance := acct.balance + |amount| } := by
  rw [validate_transaction_approved hacct hcat hle]
  have habs : acct.balance - amount = acct.balance + |amount| := by
    rw [abs_of_neg hneg]
    ring
  refine ⟨rfl, ?_⟩
  rw [← habs]
  exact get_account_updateFirst hacct (by simp [get_account_id hacct])

/-- C10 witness: amount -25 in category "therapy" is approved and the
balance rises from 100 to 125. -/
theorem C10_witness :
    (validate_transaction [acctW] 1 (-25) "therapy" "d").1 = "approved" ∧
    get_account (validate_transaction [acctW] 1 (-25) "therapy" "d").2 1 =
      some { acctW with
        transactions := [⟨"therapy", -25, some "approved", "d"⟩],
        balance := 125 } := by
  have h := C10_negative_amount_approved [acctW] 1 (-25) "therapy" "d" acctW rfl
    (by decide) (by norm_num) (by norm_num [acctW])
  refine ⟨h.1, ?_⟩
  rw [h.2]
  have habs : acctW.balance + |(-25 : ℚ)| = (125 : ℚ) := by
    rw [abs_of_neg (by norm_num : (-25 : ℚ) < 0)]
    norm_num [acctW]
  rw [habs]
  rfl

/-- C7: `issue_card` is idempotent: on an existing account, calling it twice
yields the same card number both times and mutates state only on the first
call; when a card is actually assigned, it is the literal prefix
`4000-0000-0000-` followed by the id zero-padded to 4 digits. -/
theorem C7_issue_card_idempotent (s : List Account) (aid : Nat) (acct : Account)
    (hacct : get_account s aid = some acct) :
    (issue_card (issue_card s aid).2 aid).2 = (issue_card s aid).2 ∧
    Option.map Account.card_number (issue_card s aid).1 =
      Option.map Account.card_number (issue_card (issue_card s aid).2 aid).1 ∧
    (py_falsy_str acct.card_number = true →
      Option.map Account.card_number (issue_card s aid).1 =
        some (some (card_number_for aid))) := by
  by_cases hc : py_falsy_str acct.card_number = true
  · have h1 := issue_card_falsy hacct hc
    have hget : get_account (issue_card s aid).2 aid =
        some { acct with card_number := some (card_number_for aid) } := by
      rw [h1]
      exact get_account_updateFirst hacct (by simp [get_account_id hacct])
    have hfalse : py_falsy_str
        ({ acct with card_number := some (card_number_for aid)} : Account).card_number
          = false := by
      simpa using py_falsy_card_number_for aid
    have h2 := issue_card_truthy hget hfalse
    refine ⟨?_, ?_, fun _ => ?_⟩
    · rw [h2]
    · rw [h2, h1]
    · rw [h1]
      rfl
  · have hcf : py_falsy_str acct.card_number = false := by
      cases hx : py_falsy_str acct.card_number
      · rfl
      · exact absurd hx hc
    have h1 := issue_card_truthy hacct hcf
    have h2 := issue_card_truthy (show get_account (issue_card s aid).2 aid = some acct by
      rw [h1]; exact hacct) hcf
    exact ⟨by rw [h2], by rw [h2, h1], fun hcontra => absurd hcontra hc⟩

/-- C7 witness: issuing twice on the concrete cardless account with id 1
gives the card `4000-0000-0000-0001` both times and mutates only once. -/
theorem C7_witness :
    (issue_card (issue_card [acctW] 1).2 1).2 = (issue_card [acctW] 1).2 ∧
    Option.map Account.card_number (issue_card [acctW] 1).1 =
      Option.map Account.card_number (issue_card (issue_card [acctW] 1).2 1).1 ∧
    Option.map Account.card_number (issue_card [acctW] 1).1 =
      some (some "4000-0000-0000-0001") := by
  have h := C7_issue_card_idempotent [acctW] 1 acctW rfl
  refine ⟨h.1, h.2.1, ?_⟩
  rw [h.2.2 rfl]
  decide

/-- C6: calling `create_an_account` twice with emails that normalize to the
same string (possibly differing in case or surrounding whitespace) succeeds
at most the first time: when the normalized email is fresh the first call
succeeds, and the second call always fails with the duplicate signal
(`none`), creates no account, and leaves the collection unchanged. -/
theorem C6_duplicate_email_second_fails (s : List Account) (n1 e1 n2 e2 : String)
    (hsame : py_strip_lower e1 = py_strip_lower e2) :
    (get_account_by_email s (py_strip_lower e1) = none →
      (create_an_account s n1 e1).1 ≠ none) ∧
    (create_an_account (create_an_account s n1 e1).2 n2 e2).1 = none ∧
    (create_an_account (create_an_account s n1 e1).2 n2 e2).2 =
      (create_an_account s n1 e1).2 := by
  have hkey : py_strip_lower (py_strip_lower e1) = py_strip_lower (py_strip_lower e2) :=
    congrArg py_strip_lower hsame
  refine ⟨fun hnone => by
    rw [show create_an_account s n1 e1 =
      (some { name := pyStrip n1, email := py_strip_lower e1, id := s.length + 1,
              balance := 0, card_number := none, transactions := [] },
       s ++ [{ name := pyStrip n1, email := py_strip_lower e1, id := s.length + 1,
               balance := 0, card_number := none, transactions := [] }])
      from create_an_account_not_found hnone]
    simp, ?_⟩
  cases hfind : get_account_by_email s (py_strip_lower e1) with
  | some x =>
    have h1 : create_an_account s n1 e1 = (none, s) := create_an_account_found hfind
    have hfind2 : get_account_by_email s (py_strip_lower e2) = some x := by
      unfold get_account_by_email at hfind ⊢
      rw [← hkey]
      exact hfind
    have h2 : create_an_account s n2 e2 = (none, s) := create_an_account_found hfind2
    constructor
    · rw [h1]
      rw [h2]
    · rw [h1]
      rw [h2]
  | none =>
    have h1 : create_an_account s n1 e1 =
        (some { name := pyStrip n1, email := py_strip_lower e1, id := s.length + 1,
                balance := 0, card_number := none, transactions := [] },
         s ++ [{ name := pyStrip n1, email := py_strip_lower e1, id := s.length + 1,
                 balance := 0, card_number := none, transactions := [] }]) :=
      create_an_account_not_found hfind
    have hmatch : py_strip_lower
        ({ name := pyStrip n1, email := py_strip_lower e1, id := s.length + 1,
           balance := 0, card_number := none, transactions := [] } : Account).email =
        py_strip_lower (py_strip_lower e2) := by
      simpa using hkey
    obtain ⟨b, hb⟩ := find_by_norm_email_append s hmatch
    have hfind2 : get_account_by_email (create_an_account s n1 e1).2 (py_strip_lower e2) =
        some b := by
      rw [h1]
      unfold get_account_by_email
      exact hb
    have h2 : create_an_account (create_an_account s n1 e1).2 n2 e2 =
        (none, (create_an_account s n1 e1).2) := create_an_account_found hfind2
    exact ⟨h2 ▸ rfl, h2 ▸ rfl⟩

/-- C6 witness: creating " Alice@X.com " then "alice@x.com" (same normalized
email) succeeds only the first time and leaves the collection unchanged. -/
theorem C6_witness :
    (get_account_by_email [] (py_strip_lower " Alice@X.com ") = none →
      (create_an_account [] "Alice" " Alice@X.com ").1 ≠ none) ∧
    (create_an_account (create_an_account [] "Alice" " Alice@X.com ").2
      "Bob" "alice@x.com").1 = none ∧
    (create_an_account (create_an_account [] "Alice" " Alice@X.com ").2
      "Bob" "alice@x.com").2 = (create_an_account [] "Alice" " Alice@X.com ").2 :=
  C6_duplicate_email_second_fails [] "Alice" " Alice@X.com " "Bob" "alice@x.com"
    (by decide)

/-- C2 (counterexample): the non-negativity claim fails as stated: the state
obtained by creating an account and then depositing -5 is reachable (deposits
carry arbitrary amounts) yet holds an account with balance -5 < 0. -/
theorem C2_counterexample :
    Reachable (deposit_funds (create_an_account [] "Alice" "alice@x.com").2 1 (-5)).2 ∧
    ((deposit_funds (create_an_account [] "Alice" "alice@x.com").2 1 (-5)).2.all
      (fun a => decide (0 ≤ a.balance))) = false := by
  constructor
  · exact Reachable.deposit _ 1 (-5)
      (Reachable.create [] "Alice" "alice@x.com" Reachable.init)
  · have h1 : create_an_account [] "Alice" "alice@x.com" =
        (some { name := pyStrip "Alice", email := py_strip_lower "alice@x.com",
                id := 1, balance := 0, card_number := none, transactions := [] },
         [{ name := pyStrip "Alice", email := py_strip_lower "alice@x.com",
            id := 1, balance := 0, card_number := none, transactions := [] }]) :=
      create_an_account_not_found rfl
    rw [h1]
    simp [deposit_funds, get_account, updateFirst]

/-- C2 (amended): starting from the empty collection, under any sequence of
`create_an_account`, `deposit_funds`, `issue_card`, `validate_transaction`
calls in which every deposit amount is non-negative (transaction amounts
stay arbitrary), every account's balance is non-negative. -/
theorem C2_balances_nonneg (s : List Account) (h : ReachableNonnegDeposits s) :
    ∀ a ∈ s, 0 ≤ a.balance := by
  induction h with
  | init =>
    intro a ha
    simp at ha
  | create s0 name email _ ih =>
    intro a ha
    cases hfind : get_account_by_email s0 (py_strip_lower email) with
    | some x =>
      rw [create_an_account_found hfind] at ha
      exact ih a ha
    | none =>
      rw [create_an_account_not_found hfind] at ha
      rcases List.mem_append.1 ha with h1 | h1
      · exact ih a h1
      · simp only [List.mem_singleton] at h1
        rw [h1]
  | deposit s0 aid amount hamt _ ih =>
    intro a ha
    cases hfind : get_account s0 aid with
    | none =>
      rw [deposit_funds_not_found hfind] at ha
      exact ih a ha
    | some acct =>
      rw [deposit_funds_found hfind] at ha
      rcases mem_updateFirst ha with h1 | h1
      · exact ih a h1
      · rw [h1]
        have hb := ih acct (get_account_mem hfind)
        simpa using add_nonneg hb hamt
  | card s0 aid _ ih =>
    intro a ha
    cases hfind : get_account s0 aid with
    | none =>
      rw [issue_card_not_found hfind] at ha
      exact ih a ha
    | some acct =>
      by_cases hc : py_falsy_str acct.card_number = true
      · rw [issue_card_falsy hfind hc] at ha
        rcases mem_updateFirst ha with h1 | h1
        · exact ih a h1
        · rw [h1]
          simpa using ih acct (get_account_mem hfind)
      · have hcf : py_falsy_str acct.card_number = false := by
          cases hx : py_falsy_str acct.card_number
          · rfl
          · exact absurd hx hc
        rw [issue_card_truthy hfind hcf] at ha
        exact ih a ha
  | validate s0 aid amount etype now _ ih =>
    intro a ha
    cases hfind : get_account s0 aid with
    | none =>
      rw [validate_transaction_not_found hfind] at ha
      exact ih a ha
    | some acct =>
      by_cases hcat : ALLOWED_EXPENSES.contains (py_strip_lower etype) = true
      · by_cases hgt : amount > acct.balance
        · rw [validate_transaction_insufficient hfind hcat hgt] at ha
          rcases mem_updateFirst ha with h1 | h1
          · exact ih a h1
          · rw [h1]
            simpa using ih acct (get_account_mem hfind)
        · have hle : amount ≤ acct.balance := not_lt.1 hgt
          rw [validate_transaction_approved hfind hcat hle] at ha
          rcases mem_updateFirst ha with h1 | h1
          · exact ih a h1
          · rw [h1]
            simpa using sub_nonneg.2 hle
      · have hcf : ALLOWED_EXPENSES.contains (py_strip_lower etype) = false := by
          cases hx : ALLOWED_EXPENSES.contains (py_strip_lower etype)
          · rfl
          · exact absurd hx hcat
        rw [validate_transaction_bad_category hfind hcf] at ha
        rcases mem_updateFirst ha with h1 | h1
        · exact ih a h1
        · rw [h1]
          simpa using ih acct (get_account_mem hfind)

/-- C2 witness: the amended invariant evaluated on a concrete reachable
state (create then deposit 5). -/
theorem C2_witness :
    ((deposit_funds (create_an_account [] "Alice" "alice@x.com").2 1 5).2.all
      (fun a => decide (0 ≤ a.balance))) = true := by
  have h := C2_balances_nonneg _
    (ReachableNonnegDeposits.deposit _ 1 5 (by norm_num)
      (ReachableNonnegDeposits.create [] "Alice" "alice@x.com"
        ReachableNonnegDeposits.init))
  rw [List.all_eq_true]
  intro a ha
  simpa using h a ha
